import Mathlib

/-
Shallow embedding of the doctor/consultation subsystem of
`doctor_registry.py` and of the prediction wrapper `predict.py` of the
Heart-Disease-Detection repository, together with theorems settling the
behavioural claims about them.

Conventions of the embedding:
  * the two SQLite files (data/doctors.db and data/users.db) become plain
    Lean values: lists of rows plus AUTOINCREMENT counters;
  * `secrets.token_urlsafe(n)` is an external randomness source, so each
    operation that calls it takes the produced token as an explicit
    argument `tok : String`; the byte count `n` appearing in the source is
    recorded in `video_token_nbytes`;
  * `CURRENT_TIMESTAMP` is an external clock, so each operation that
    stores it takes the current instant as an explicit argument
    `now : Nat`;
  * `ORDER BY` over a scanned table is modelled as a stable merge sort of
    the rows in insertion order;
  * Python floats are modelled by `PyFloat` (a rational or one of the
    non-finite markers), and SQLite REAL columns by `ℚ`.
-/

/-- A row of the `users` table in data/users.db, with the columns read by
the cross-store lookups in doctor_registry.py
(`SELECT username, email FROM users WHERE id = ?`). -/
structure User where
  id : Nat
  username : String
  email : String
  role : String
  deriving DecidableEq

/-- A row of the `doctors` table (schema in
`DoctorRegistry.init_doctor_database`, doctor_registry.py lines 27-54). -/
structure Doctor where
  id : Nat
  user_id : Option Nat
  name : String
  specialization : String
  years_experience : Int
  location : String
  city : String
  state : String
  country : String
  phone : String
  email : String
  consultation_fee : ℚ
  rating : ℚ
  total_reviews : Nat
  is_verified : Bool
  is_available : Bool
  emergency_contact : Bool
  video_consultation : Bool
  chat_consultation : Bool
  deriving DecidableEq

/-- A row of the `doctor_reviews` table (doctor_registry.py lines 57-67). -/
structure Review where
  id : Nat
  doctor_id : Nat
  patient_id : Nat
  rating : Int
  review_text : String
  deriving DecidableEq

/-- A row of the `consultations` table (doctor_registry.py lines 70-84).
`status` defaults to "pending" and `video_call_link` is nullable. -/
structure Consultation where
  id : Nat
  doctor_id : Nat
  patient_id : Nat
  consultation_type : String
  consultation_date : String
  consultation_time : String
  duration_minutes : Nat
  status : String
  notes : String
  video_call_link : Option String
  created_at : Nat
  deriving DecidableEq

/-- A row of the `chat_messages` table (doctor_registry.py lines 87-97). -/
structure ChatMessage where
  id : Nat
  consultation_id : Nat
  sender_id : Nat
  sender_type : String
  message : String
  created_at : Nat
  deriving DecidableEq

/-- The mutable contents of data/doctors.db, plus the AUTOINCREMENT
counters for the two tables whose generated ids the code reads back
through `cursor.lastrowid`. -/
structure RegistryState where
  doctors : List Doctor
  doctor_reviews : List Review
  consultations : List Consultation
  chat_messages : List ChatMessage
  nextConsultationId : Nat
  nextMessageId : Nat
  deriving DecidableEq

/-- The optional search filters accepted by `DoctorRegistry.get_doctors`
(`filters: dict = None`); a missing dictionary key is `none`. -/
structure DoctorFilters where
  specialization : Option String
  city : Option String
  min_experience : Option Int
  max_fee : Option ℚ
  deriving DecidableEq

/-- Python truthiness of `filters.get('specialization')` /
`filters.get('city')`: present and non-empty. -/
def truthyStr : Option String → Bool
  | none => false
  | some s => !(s = "")

/-- Python truthiness of `filters.get('min_experience')`: present and
non-zero. -/
def truthyInt : Option Int → Bool
  | none => false
  | some n => !(n = 0)

/-- Python truthiness of `filters.get('max_fee')`: present and non-zero. -/
def truthyRat : Option ℚ → Bool
  | none => false
  | some q => !(q = 0)

/-- The row shape produced by the query in `DoctorRegistry.get_doctors`:
`SELECT d.*, COUNT(r.id) as review_count, AVG(r.rating) as avg_rating`
with a LEFT JOIN on `doctor_reviews` grouped by doctor; a doctor with no
reviews gets count 0 and a NULL average. -/
structure DoctorRow where
  doctor : Doctor
  review_count : Nat
  avg_rating : Option ℚ
  deriving DecidableEq

/-- `AVG(r.rating)` over the reviews of one doctor under the LEFT JOIN:
NULL when the doctor has no reviews. -/
def avgRatingFor (reviews : List Review) (did : Nat) : Option ℚ :=
  let rs := reviews.filter (fun r => r.doctor_id = did)
  if rs.length = 0 then none
  else some ((rs.map (fun r => (r.rating : ℚ))).sum / (rs.length : ℚ))

/-- The sort key of `ORDER BY avg_rating DESC, d.years_experience DESC`:
row `a` may precede row `b`.  SQLite treats NULL as smaller than every
number, so NULL averages come last in descending order. -/
def doctorRowLe (a b : DoctorRow) : Bool :=
  match a.avg_rating, b.avg_rating with
  | some x, some y =>
      decide (y < x) ||
      (decide (x = y) && decide (b.doctor.years_experience ≤ a.doctor.years_experience))
  | some _, none => true
  | none, some _ => false
  | none, none => decide (b.doctor.years_experience ≤ a.doctor.years_experience)

/-- Whether one doctor row passes the WHERE clause built by
`DoctorRegistry.get_doctors` (doctor_registry.py lines 284-311): always
`d.is_available = TRUE`, and each filter clause is appended only when the
corresponding dictionary value is truthy. -/
def doctorMatches (f : DoctorFilters) (d : Doctor) : Bool :=
  (!truthyStr f.specialization || decide (some d.specialization = f.specialization)) &&
  (!truthyStr f.city || decide (some d.city = f.city)) &&
  (!truthyInt f.min_experience ||
    (match f.min_experience with
     | none => true
     | some n => decide (n ≤ d.years_experience))) &&
  (!truthyRat f.max_fee ||
    (match f.max_fee with
     | none => true
     | some q => decide (d.consultation_fee ≤ q)))

/-- `DoctorRegistry.get_doctors` (doctor_registry.py lines 279-321):
available doctors passing the truthy filters, enriched with review
aggregates, ordered by average rating then experience, both descending. -/
def get_doctors (s : RegistryState) (filters : Option DoctorFilters) : List DoctorRow :=
  let avail := s.doctors.filter (fun d => d.is_available)
  let matched :=
    match filters with
    | none => avail
    | some f => avail.filter (doctorMatches f)
  (matched.map (fun d =>
    { doctor := d,
      review_count := (s.doctor_reviews.filter (fun r => r.doctor_id = d.id)).length,
      avg_rating := avgRatingFor s.doctor_reviews d.id })).mergeSort doctorRowLe

/-- The byte count passed to `secrets.token_urlsafe` when a video-call
link is generated (doctor_registry.py lines 371 and 1100). -/
def video_token_nbytes : Nat := 8

/-- The fixed link template with the random token embedded
(doctor_registry.py lines 371 and 1100). -/
def video_call_link_for (tok : String) : String :=
  "https://meet.jit.si/heartcare-" ++ tok

/-- The consultation payload dictionary passed to
`DoctorRegistry.book_consultation`; `notes` and `duration_minutes` are
read with `.get`, so they may be absent. -/
structure BookingData where
  type : String
  date : String
  time : String
  notes : Option String
  duration_minutes : Option Nat
  deriving DecidableEq

/-- The result dictionary of `DoctorRegistry.book_consultation`. -/
structure BookResult where
  success : Bool
  consultation_id : Option Nat
  video_call_link : Option String
  message : String
  deriving DecidableEq

/-- `DoctorRegistry.book_consultation` (doctor_registry.py lines 358-411).
The schema created by `init_doctor_database` contains `duration_minutes`,
so the PRAGMA check takes the first branch.  `tok` is the token produced
by `secrets.token_urlsafe(video_token_nbytes)` and `now` the value of
`CURRENT_TIMESTAMP` at the insert. -/
def book_consultation (s : RegistryState) (doctor_id patient_id : Nat)
    (data : BookingData) (tok : String) (now : Nat) : BookResult × RegistryState :=
  let link : Option String :=
    if data.type = "Video Consultation" then some (video_call_link_for tok) else none
  let row : Consultation :=
    { id := s.nextConsultationId, doctor_id := doctor_id, patient_id := patient_id,
      consultation_type := data.type, consultation_date := data.date,
      consultation_time := data.time,
      duration_minutes := data.duration_minutes.getD 15,
      status := "pending", notes := data.notes.getD "",
      video_call_link := link, created_at := now }
  ({ success := true, consultation_id := some s.nextConsultationId,
     video_call_link := link, message := "Consultation booked successfully" },
   { s with consultations := s.consultations ++ [row],
            nextConsultationId := s.nextConsultationId + 1 })

/-- The `{success, message}` result shape shared by
`update_consultation_status` and `send_chat_message`. -/
structure OpResult where
  success : Bool
  message : String
  deriving DecidableEq

/-- `DoctorRegistry.update_consultation_status` (doctor_registry.py lines
482-495): `UPDATE consultations SET status = ? WHERE id = ?`, then
`{'success': True}` regardless of how many rows matched. -/
def update_consultation_status (s : RegistryState) (cid : Nat) (status : String) :
    OpResult × RegistryState :=
  let updated := s.consultations.map
    (fun c => if c.id = cid then { c with status := status } else c)
  ({ success := true, message := "Status updated successfully" },
   { s with consultations := updated })

/-- `DoctorRegistry.send_chat_message` (doctor_registry.py lines 497-514):
a single INSERT into `chat_messages`, no validation of the text or of the
sender type; `now` is the `CURRENT_TIMESTAMP` default of `created_at`. -/
def send_chat_message (s : RegistryState) (cid sender_id : Nat)
    (sender_type text : String) (now : Nat) : OpResult × RegistryState :=
  let row : ChatMessage :=
    { id := s.nextMessageId, consultation_id := cid, sender_id := sender_id,
      sender_type := sender_type, message := text, created_at := now }
  ({ success := true, message := "Message sent successfully" },
   { s with chat_messages := s.chat_messages ++ [row],
            nextMessageId := s.nextMessageId + 1 })

/-- Comparison used by the `ORDER BY created_at ASC` of
`get_chat_messages`. -/
def createdAtLe (a b : ChatMessage) : Bool :=
  decide (a.created_at ≤ b.created_at)

/-- `DoctorRegistry.get_chat_messages` (doctor_registry.py lines 516-535):
`SELECT * FROM chat_messages WHERE consultation_id = ? ORDER BY created_at ASC`. -/
def get_chat_messages (s : RegistryState) (cid : Nat) : List ChatMessage :=
  (s.chat_messages.filter (fun m => m.consultation_id = cid)).mergeSort createdAtLe

/-- Comparison used by the `ORDER BY consultation_date DESC,
consultation_time DESC` of the consultation listings. -/
def dateTimeDescLe (a b : Consultation) : Bool :=
  decide (b.consultation_date < a.consultation_date) ||
  (decide (b.consultation_date = a.consultation_date) &&
   decide (b.consultation_time ≤ a.consultation_time))

/-- One element of the enriched list returned by
`get_doctor_consultations`: the consultation tuple with the patient's
username and email appended. -/
structure EnrichedConsultation where
  consultation : Consultation
  patient_name : String
  patient_email : String
  deriving DecidableEq

/-- `DoctorRegistry.get_doctor_consultations` (doctor_registry.py lines
413-456): the doctor's consultations ordered by date then time descending,
each enriched by a per-row lookup of the patient in data/users.db; a
missing patient yields the placeholder pair
("Unknown Patient", "unknown@email.com"). -/
def get_doctor_consultations (s : RegistryState) (users : List User) (did : Nat) :
    List EnrichedConsultation :=
  ((s.consultations.filter (fun c => c.doctor_id = did)).mergeSort dateTimeDescLe).map
    (fun c =>
      match users.find? (fun u => u.id = c.patient_id) with
      | some u => { consultation := c, patient_name := u.username, patient_email := u.email }
      | none => { consultation := c, patient_name := "Unknown Patient",
                  patient_email := "unknown@email.com" })

/-- The consultation lookup at the top of `render_chat_interface`
(doctor_registry.py lines 1072-1078): `SELECT c.*, d.name, c.patient_id,
c.video_call_link FROM consultations c JOIN doctors d ON c.doctor_id =
d.id WHERE c.id = ?` with `fetchone`; `none` when the consultation is
absent or its doctor has no row. -/
def get_consultation_for_chat (s : RegistryState) (cid : Nat) :
    Option (Consultation × String) :=
  (s.consultations.find? (fun c => c.id = cid)).bind (fun c =>
    (s.doctors.find? (fun d => d.id = c.doctor_id)).map (fun d => (c, d.name)))

/-- The store after `UPDATE consultations SET video_call_link = ? WHERE
id = ?` (doctor_registry.py line 1104). -/
def set_video_link (s : RegistryState) (cid : Nat) (l : String) : RegistryState :=
  let updated := s.consultations.map
    (fun c' => if c'.id = cid then { c' with video_call_link := some l } else c')
  { s with consultations := updated }

/-- The video-link branch of `render_chat_interface` (doctor_registry.py
lines 1096-1112), which realises the spec's `ensure_video_link`: when the
looked-up consultation already carries a link it is shown unchanged; when
it carries none, a fresh link is generated from `tok` and persisted with
`UPDATE consultations SET video_call_link = ? WHERE id = ?`. -/
def ensure_video_link (s : RegistryState) (cid : Nat) (tok : String) :
    Option String × RegistryState :=
  match get_consultation_for_chat s cid with
  | none => (none, s)
  | some (c, _) =>
    match c.video_call_link with
    | some l => (some l, s)
    | none =>
      let l := video_call_link_for tok
      (some l, set_video_link s cid l)

/-- A Python float as handed to numpy: a finite rational value or one of
the non-finite markers NaN, +inf, -inf. -/
inductive PyFloat where
  | nan : PyFloat
  | inf : PyFloat
  | ninf : PyFloat
  | fin : ℚ → PyFloat
  deriving DecidableEq

/-- `np.isnan(x) or np.isinf(x)` for a single entry. -/
def PyFloat.nonFinite : PyFloat → Bool
  | .nan => true
  | .inf => true
  | .ninf => true
  | .fin _ => false

/-- The numeric value of a finite entry (only applied after validation). -/
def PyFloat.toRat : PyFloat → ℚ
  | .fin q => q
  | _ => 0

/-- `HeartDiseasePredictor.feature_names` (predict.py lines 29-32). -/
def feature_names : List String :=
  ["age", "sex", "cp", "trestbps", "chol", "fbs", "restecg",
   "thalach", "exang", "oldpeak", "slope", "ca", "thal"]

/-- `HeartDiseasePredictor.validate_input` (predict.py lines 73-124) on a
one-dimensional list input: the list becomes a 1-by-n array, the column
count must equal `len(feature_names)`, and no entry may be NaN or
infinite; the `(None, False)` failures become `none`. -/
def validate_input (input : List PyFloat) : Option (List PyFloat) :=
  if input.length = feature_names.length then
    if input.any PyFloat.nonFinite then none else some input
  else none

/-- Modelled from the spec: the pickled StandardScaler
(models/scaler.pkl) loaded by predict.py is not under src/; per the
training pipeline described in the spec it is an elementwise affine map
x ↦ (x - mean) / scale. -/
structure Scaler where
  mean : List ℚ
  scale : List ℚ

/-- `self.scaler.transform` on one sample. -/
def Scaler.transform (sc : Scaler) (xs : List ℚ) : List ℚ :=
  (xs.zip (sc.mean.zip sc.scale)).map (fun p => (p.1 - p.2.1) / p.2.2)

/-- Modelled from the spec: the pickled classifier
(models/heart_rf_model.pkl) loaded by predict.py is not under src/.  The
spec's RiskModel contract is a binary classifier; it is modelled as the
random forest the training script fits: a non-empty ensemble of decision
trees, each voting a binary class over the scaled sample. -/
structure RiskModel where
  trees : List (List ℚ → Bool)
  nonnil : trees ≠ []

/-- `self.model.predict_proba(...)[0][1]`: the fraction of trees voting
class 1. -/
def RiskModel.proba1 (m : RiskModel) (xs : List ℚ) : ℚ :=
  ((m.trees.countP (fun t => t xs) : ℚ)) / (m.trees.length : ℚ)

/-- `self.model.predict(...)[0]`: the class with the larger mean vote,
class 0 winning ties (argmax over the class order 0, 1). -/
def RiskModel.predictClass (m : RiskModel) (xs : List ℚ) : ℤ :=
  if 1 - m.proba1 xs < m.proba1 xs then 1 else 0

/-- The loaded-state of a `HeartDiseasePredictor`: `self.model` and
`self.scaler` are `None` when `load_model_and_scaler` failed. -/
structure HeartDiseasePredictor where
  model : Option RiskModel
  scaler : Option Scaler

/-- `HeartDiseasePredictor.predict_heart_disease` (predict.py lines
126-169): `(None, None)` when the model or scaler is not loaded or when
validation fails; otherwise the scaled sample's predicted class and
class-1 probability. -/
def predict_heart_disease (p : HeartDiseasePredictor) (input : List PyFloat) :
    Option ℤ × Option ℚ :=
  match p.model, p.scaler with
  | some m, some sc =>
    match validate_input input with
    | none => (none, none)
    | some arr =>
      let scaled := sc.transform (arr.map PyFloat.toRat)
      (some (m.predictClass scaled), some (m.proba1 scaled))
  | _, _ => (none, none)

/-- One queued chat append: sender id, sender type, text, and the wall
clock instant `CURRENT_TIMESTAMP` takes when the INSERT runs. -/
structure ChatAppend where
  sender_id : Nat
  sender_type : String
  text : String
  sent_at : Nat
  deriving DecidableEq

/-- A sequence of `send_chat_message` calls against one consultation. -/
def sendMany (s : RegistryState) (cid : Nat) (items : List ChatAppend) :
    RegistryState :=
  items.foldl
    (fun st it => (send_chat_message st cid it.sender_id it.sender_type it.text it.sent_at).2) s

/-- The caller-visible content of a stored chat message. -/
def chatProj (m : ChatMessage) : Nat × String × String × Nat :=
  (m.sender_id, m.sender_type, m.message, m.created_at)

/-- The caller-visible content of a queued append. -/
def appendProj (it : ChatAppend) : Nat × String × String × Nat :=
  (it.sender_id, it.sender_type, it.text, it.sent_at)

/-- A patient row mirroring the fake seed data of data/users.db. -/
def exUser : User :=
  { id := 2, username := "alice", email := "alice@mail.com", role := "patient" }

/-- The first seeded doctor of `add_fake_doctors` (doctor_registry.py
lines 117-137). -/
def exDoctor : Doctor :=
  { id := 1, user_id := none, name := "Dr. Rajesh Kumar",
    specialization := "Cardiologist", years_experience := 15,
    location := "Apollo Heart Institute", city := "Mumbai",
    state := "Maharashtra", country := "India", phone := "+91 98765 43210",
    email := "dr.rajesh@apollo.com", consultation_fee := 1500,
    rating := 5, total_reviews := 127, is_verified := false,
    is_available := true, emergency_contact := true,
    video_consultation := true, chat_consultation := true }

/-- A registry holding the seeded doctor and nothing else. -/
def exState : RegistryState :=
  { doctors := [exDoctor], doctor_reviews := [], consultations := [],
    chat_messages := [], nextConsultationId := 1, nextMessageId := 1 }

/-- A video-consultation booking payload. -/
def exBooking : BookingData :=
  { type := "Video Consultation", date := "2025-07-01", time := "10:00:00",
    notes := some "checkup", duration_minutes := none }

/-- A booking payload whose type is none of the four supported
consultation types. -/
def exBadBooking : BookingData :=
  { type := "Telepathy Consultation", date := "2025-07-01",
    time := "10:00:00", notes := none, duration_minutes := none }

/-- A stored in-person consultation. -/
def exConsultation : Consultation :=
  { id := 1, doctor_id := 1, patient_id := 2,
    consultation_type := "In-Person", consultation_date := "2025-07-01",
    consultation_time := "15:00:00", duration_minutes := 15,
    status := "pending", notes := "", video_call_link := none,
    created_at := 3 }

/-- A registry holding the seeded doctor and one stored consultation. -/
def exState2 : RegistryState :=
  { doctors := [exDoctor], doctor_reviews := [],
    consultations := [exConsultation], chat_messages := [],
    nextConsultationId := 2, nextMessageId := 1 }

/-- A filter dictionary carrying only `max_fee = 0`. -/
def exFeeFilters : DoctorFilters :=
  { specialization := none, city := none, min_experience := none,
    max_fee := some 0 }

/-- A filter dictionary carrying nonzero experience and fee bounds. -/
def exBothFilters : DoctorFilters :=
  { specialization := none, city := none, min_experience := some 10,
    max_fee := some 2000 }

/-- A first queued chat message. -/
def exAppend1 : ChatAppend :=
  { sender_id := 1, sender_type := "doctor", text := "hello", sent_at := 4 }

/-- A second queued chat message, sent later. -/
def exAppend2 : ChatAppend :=
  { sender_id := 2, sender_type := "patient", text := "hi", sent_at := 5 }

/-- A trivial scaler: identity affine map on all 13 features. -/
def exScaler : Scaler :=
  { mean := List.replicate 13 0, scale := List.replicate 13 1 }

/-- A decision tree voting class 1 on every sample. -/
def exTree : List ℚ → Bool := fun _ => true

/-- A one-tree forest. -/
def exModel : RiskModel :=
  { trees := [exTree], nonnil := by simp }

/-- A predictor whose model and scaler loaded successfully. -/
def exPredictor : HeartDiseasePredictor :=
  { model := some exModel, scaler := some exScaler }

/-- A well-formed 13-field clinical vector. -/
def exInput : List PyFloat := List.replicate 13 (PyFloat.fin 1)

/-- C1: for every booking request whose type is "Video Consultation",
`book_consultation` reports success, returns the new consultation id and
a non-null link consisting of the fixed template with the token produced
by `secrets.token_urlsafe(video_token_nbytes)` embedded, where
`video_token_nbytes ≥ 8`, and inserts exactly one consultation row, whose
status is "pending" and which carries that same link. -/
theorem book_video_inserts_one_pending_row_with_link
    (s : RegistryState) (did pid : Nat) (bd : BookingData) (tok : String) (now : Nat)
    (hty : bd.type = "Video Consultation") :
    (book_consultation s did pid bd tok now).1.success = true ∧
    (book_consultation s did pid bd tok now).1.consultation_id =
      some s.nextConsultationId ∧
    (book_consultation s did pid bd tok now).1.video_call_link =
      some (video_call_link_for tok) ∧
    8 ≤ video_token_nbytes ∧
    ∃ row : Consultation,
      (book_consultation s did pid bd tok now).2.consultations =
        s.consultations ++ [row] ∧
      row.status = "pending" ∧ row.id = s.nextConsultationId ∧
      row.video_call_link = some (video_call_link_for tok) := by
  refine ⟨rfl, rfl, ?_, le_refl 8, ?_⟩
  · simp [book_consultation, hty]
  · exact ⟨_, rfl, rfl, rfl, by simp [book_consultation, hty]⟩

/-- Concrete instance of C1: a video booking against the seeded state. -/
theorem book_video_inserts_one_pending_row_with_link_witness :
    exBooking.type = "Video Consultation" ∧
    ((book_consultation exState 1 2 exBooking "abc12345" 5).1.success = true ∧
     (book_consultation exState 1 2 exBooking "abc12345" 5).1.consultation_id =
       some exState.nextConsultationId ∧
     (book_consultation exState 1 2 exBooking "abc12345" 5).1.video_call_link =
       some (video_call_link_for "abc12345") ∧
     8 ≤ video_token_nbytes ∧
     ∃ row : Consultation,
       (book_consultation exState 1 2 exBooking "abc12345" 5).2.consultations =
         exState.consultations ++ [row] ∧
       row.status = "pending" ∧ row.id = exState.nextConsultationId ∧
       row.video_call_link = some (video_call_link_for "abc12345")) :=
  ⟨rfl, book_video_inserts_one_pending_row_with_link exState 1 2 exBooking "abc12345" 5 rfl⟩

/-- C3: for every stored consultation id and every status string,
`update_consultation_status` reports success and overwrites the stored
status unconditionally: afterwards some row with that id carries exactly
the status set, and every row with that id carries it. -/
theorem set_status_unconditional_overwrite
    (s : RegistryState) (cid : Nat) (status : String)
    (hmem : ∃ c ∈ s.consultations, c.id = cid) :
    (update_consultation_status s cid status).1.success = true ∧
    (∃ c' ∈ (update_consultation_status s cid status).2.consultations,
       c'.id = cid ∧ c'.status = status) ∧
    (∀ c' ∈ (update_consultation_status s cid status).2.consultations,
       c'.id = cid → c'.status = status) := by
  obtain ⟨c, hc, hcid⟩ := hmem
  refine ⟨rfl, ?_, ?_⟩
  · exact ⟨_, List.mem_map_of_mem _ hc, by simp [hcid], by simp [hcid]⟩
  · intro c' hc' hid
    obtain ⟨c₀, _, heq⟩ := List.mem_map.1 hc'
    by_cases h : c₀.id = cid
    · rw [← heq]; simp [h]
    · rw [← heq] at hid
      simp [h] at hid

/-- Concrete instance of C3: overwriting with a string outside the
intended enum succeeds and is read back verbatim. -/
theorem set_status_unconditional_overwrite_witness :
    (∃ c ∈ exState2.consultations, c.id = 1) ∧
    ((update_consultation_status exState2 1 "garbage").1.success = true ∧
     (∃ c' ∈ (update_consultation_status exState2 1 "garbage").2.consultations,
        c'.id = 1 ∧ c'.status = "garbage") ∧
     (∀ c' ∈ (update_consultation_status exState2 1 "garbage").2.consultations,
        c'.id = 1 → c'.status = "garbage")) :=
  ⟨by decide, set_status_unconditional_overwrite exState2 1 "garbage" (by decide)⟩

/-- C10: for every consultation id absent from the store,
`update_consultation_status` still returns `{'success': True}` and leaves
the whole store unchanged. -/
theorem set_status_missing_id_reports_success
    (s : RegistryState) (cid : Nat) (status : String)
    (habs : ∀ c ∈ s.consultations, c.id ≠ cid) :
    (update_consultation_status s cid status).1.success = true ∧
    (update_consultation_status s cid status).2 = s := by
  refine ⟨rfl, ?_⟩
  have hmap : s.consultations.map
      (fun c => if c.id = cid then { c with status := status } else c) =
      s.consultations := by
    conv_rhs => rw [← List.map_id s.consultations]
    apply List.map_congr_left
    intro a ha
    simp [habs a ha]
  simp only [update_consultation_status]
  rw [hmap]

/-- Concrete instance of C10: updating a missing id reports success and
changes nothing. -/
theorem set_status_missing_id_reports_success_witness :
    (∀ c ∈ exState2.consultations, c.id ≠ 99) ∧
    ((update_consultation_status exState2 99 "confirmed").1.success = true ∧
     (update_consultation_status exState2 99 "confirmed").2 = exState2) :=
  ⟨by decide, set_status_missing_id_reports_success exState2 99 "confirmed" (by decide)⟩

/-- C4 counterexample: a booking whose type is none of the four supported
consultation types is accepted: `book_consultation` reports success and
inserts a row, contradicting the claim that it fails validation and
inserts nothing. -/
theorem book_unsupported_type_counterexample :
    exBadBooking.type ∉ (["Video Consultation", "Chat Consultation",
      "In-Person", "Emergency Consultation"] : List String) ∧
    (book_consultation exState 1 2 exBadBooking "tok" 0).1.success = true ∧
    (book_consultation exState 1 2 exBadBooking "tok" 0).2.consultations.length =
      exState.consultations.length + 1 := by
  decide

/-- C4 amended: `book_consultation` performs no validation of the
consultation type: for every type it reports success and inserts exactly
one row carrying that type, and types other than "Video Consultation" get
no video link. -/
theorem book_inserts_without_type_validation
    (s : RegistryState) (did pid : Nat) (bd : BookingData) (tok : String) (now : Nat) :
    (book_consultation s did pid bd tok now).1.success = true ∧
    (∃ row : Consultation,
      (book_consultation s did pid bd tok now).2.consultations =
        s.consultations ++ [row] ∧
      row.consultation_type = bd.type) ∧
    (bd.type ≠ "Video Consultation" →
      (book_consultation s did pid bd tok now).1.video_call_link = none) := by
  refine ⟨rfl, ⟨_, rfl, rfl⟩, ?_⟩
  intro h
  simp [book_consultation, h]

/-- Concrete instance of C4 amended: the unsupported type is accepted and
gets no link. -/
theorem book_inserts_without_type_validation_witness :
    (book_consultation exState 1 2 exBadBooking "tok" 0).1.success = true ∧
    (book_consultation exState 1 2 exBadBooking "tok" 0).1.video_call_link = none :=
  ⟨(book_inserts_without_type_validation exState 1 2 exBadBooking "tok" 0).1,
   (book_inserts_without_type_validation exState 1 2 exBadBooking "tok" 0).2.2 (by decide)⟩

/-- C5 counterexample: appending a message whose text is empty succeeds
(no ValidationError is possible: the result is `{'success': True}`) and
grows the list returned by `get_chat_messages`, contradicting the claim
that the operation fails and leaves the list unchanged. -/
theorem append_empty_text_counterexample :
    (send_chat_message exState2 1 2 "patient" "" 5).1.success = true ∧
    (get_chat_messages (send_chat_message exState2 1 2 "patient" "" 5).2 1).length =
      (get_chat_messages exState2 1).length + 1 := by
  refine ⟨rfl, ?_⟩
  simp only [get_chat_messages, send_chat_message]
  rw [List.length_mergeSort, List.length_mergeSort]
  decide

/-- C5 amended: `send_chat_message` performs no validation at all: for
every text (empty or whitespace-only included) and every sender type it
reports success and appends exactly one message row, so the list returned
by `get_chat_messages` grows by one. -/
theorem append_never_validates_text
    (s : RegistryState) (cid sid : Nat) (stype text : String) (now : Nat) :
    (send_chat_message s cid sid stype text now).1.success = true ∧
    (send_chat_message s cid sid stype text now).2.chat_messages =
      s.chat_messages ++
        [{ id := s.nextMessageId, consultation_id := cid, sender_id := sid,
           sender_type := stype, message := text, created_at := now }] ∧
    (get_chat_messages (send_chat_message s cid sid stype text now).2 cid).length =
      (get_chat_messages s cid).length + 1 := by
  refine ⟨rfl, rfl, ?_⟩
  simp only [get_chat_messages, send_chat_message]
  rw [List.length_mergeSort, List.length_mergeSort]
  simp [List.filter_append]

/-- If a doctor passes the WHERE clause and the `min_experience` value is
a nonzero (truthy) integer, the experience bound holds. -/
theorem doctorMatches_min_exp {f : DoctorFilters} {d : Doctor}
    (h : doctorMatches f d = true) {N : Int}
    (hN : f.min_experience = some N) (hN0 : N ≠ 0) :
    N ≤ d.years_experience := by
  simp only [doctorMatches, Bool.and_eq_true] at h
  have h3 := h.1.2
  rw [hN] at h3
  simpa [truthyInt, hN0] using h3

/-- If a doctor passes the WHERE clause and the `max_fee` value is a
nonzero (truthy) number, the fee bound holds. -/
theorem doctorMatches_max_fee {f : DoctorFilters} {d : Doctor}
    (h : doctorMatches f d = true) {F : ℚ}
    (hF : f.max_fee = some F) (hF0 : F ≠ 0) :
    d.consultation_fee ≤ F := by
  simp only [doctorMatches, Bool.and_eq_true] at h
  have h4 := h.2
  rw [hF] at h4
  simpa [truthyRat, hF0] using h4

/-- C6 counterexample: with the filter value `max_fee = 0`, `get_doctors`
returns the seeded doctor whose fee is 1500 > 0: a zero (falsy) filter
value is silently dropped, so the claimed bound fails. -/
theorem find_zero_fee_filter_counterexample :
    exFeeFilters.max_fee = some 0 ∧
    ∃ row ∈ get_doctors exState (some exFeeFilters),
      ¬ row.doctor.consultation_fee ≤ 0 := by
  refine ⟨rfl, ?_⟩
  refine ⟨{ doctor := exDoctor, review_count := 0, avg_rating := none }, ?_, ?_⟩
  · exact List.mem_mergeSort.2 (by decide)
  · decide

/-- C6 amended: `get_doctors` applies a filter only when its value is
truthy in Python (a nonzero number): every returned doctor is available,
a nonzero `min_experience = N` bounds the experience from below, a
nonzero `max_fee = F` bounds the fee from above, and with both filters
nonzero both bounds hold simultaneously (the intersection). -/
theorem find_truthy_filters_bound
    (s : RegistryState) (f : DoctorFilters) (row : DoctorRow)
    (hrow : row ∈ get_doctors s (some f)) :
    row.doctor.is_available = true ∧
    (∀ N : Int, f.min_experience = some N → N ≠ 0 →
      N ≤ row.doctor.years_experience) ∧
    (∀ F : ℚ, f.max_fee = some F → F ≠ 0 →
      row.doctor.consultation_fee ≤ F) := by
  have h1 : row ∈ ((s.doctors.filter (fun d => d.is_available)).filter
      (doctorMatches f)).map (fun d =>
        ({ doctor := d,
           review_count := (s.doctor_reviews.filter (fun r => r.doctor_id = d.id)).length,
           avg_rating := avgRatingFor s.doctor_reviews d.id } : DoctorRow)) :=
    List.mem_mergeSort.1 hrow
  obtain ⟨d, hd, rfl⟩ := List.mem_map.1 h1
  rw [List.mem_filter] at hd
  obtain ⟨hd0, hmatch⟩ := hd
  rw [List.mem_filter] at hd0
  refine ⟨by simpa using hd0.2, ?_, ?_⟩
  · intro N hN hN0
    exact doctorMatches_min_exp hmatch hN hN0
  · intro F hF hF0
    exact doctorMatches_max_fee hmatch hF hF0

/-- Concrete instance of C6 amended: with nonzero bounds 10 years and fee
2000, the returned seeded doctor satisfies both. -/
theorem find_truthy_filters_bound_witness :
    ({ doctor := exDoctor, review_count := 0, avg_rating := none } : DoctorRow) ∈
      get_doctors exState (some exBothFilters) ∧
    ({ doctor := exDoctor, review_count := 0, avg_rating := none } : DoctorRow).doctor.is_available = true ∧
    (10 : Int) ≤ exDoctor.years_experience ∧
    exDoctor.consultation_fee ≤ (2000 : ℚ) :=
  have hm : ({ doctor := exDoctor, review_count := 0, avg_rating := none } : DoctorRow) ∈
      get_doctors exState (some exBothFilters) := List.mem_mergeSort.2 (by decide)
  have h := find_truthy_filters_bound exState exBothFilters
    { doctor := exDoctor, review_count := 0, avg_rating := none } hm
  ⟨hm, h.1, h.2.1 10 rfl (by decide), h.2.2 2000 rfl (by decide)⟩

/-- C7: booking never checks the patient id against the users store (it
succeeds for any id), and `get_doctor_consultations` afterwards resolves
every consultation whose patient id has no users row to the placeholder
pair ("Unknown Patient", "unknown@email.com") instead of failing; in
particular the freshly booked consultation is listed that way. -/
theorem book_unknown_patient_placeholder
    (s : RegistryState) (users : List User) (did pid : Nat)
    (bd : BookingData) (tok : String) (now : Nat)
    (hnouser : users.find? (fun u => u.id = pid) = none) :
    (book_consultation s did pid bd tok now).1.success = true ∧
    (∀ e ∈ get_doctor_consultations (book_consultation s did pid bd tok now).2 users did,
      users.find? (fun u => u.id = e.consultation.patient_id) = none →
      e.patient_name = "Unknown Patient" ∧ e.patient_email = "unknown@email.com") ∧
    (∃ e ∈ get_doctor_consultations (book_consultation s did pid bd tok now).2 users did,
      e.consultation.id = s.nextConsultationId ∧
      e.patient_name = "Unknown Patient" ∧ e.patient_email = "unknown@email.com") := by
  refine ⟨rfl, ?_, ?_⟩
  · intro e he hfind
    obtain ⟨c, hc, rfl⟩ := List.mem_map.1 he
    cases hfe : users.find? (fun u => u.id = c.patient_id) with
    | none => simp [hfe]
    | some u =>
      simp only [hfe] at hfind
      cases hfind
  · have hrowmem :
        ({ id := s.nextConsultationId, doctor_id := did, patient_id := pid,
           consultation_type := bd.type, consultation_date := bd.date,
           consultation_time := bd.time,
           duration_minutes := bd.duration_minutes.getD 15,
           status := "pending", notes := bd.notes.getD "",
           video_call_link := if bd.type = "Video Consultation"
             then some (video_call_link_for tok) else none,
           created_at := now } : Consultation) ∈
          ((book_consultation s did pid bd tok now).2.consultations.filter
            (fun c => c.doctor_id = did)) := by
      simp [book_consultation, List.filter_append]
    refine ⟨_, List.mem_map_of_mem _ (List.mem_mergeSort.2 hrowmem), ?_⟩
    simp [hnouser]

/-- `ensure_video_link` on a consultation that already carries a link
returns that link and leaves the store untouched. -/
theorem ensure_video_link_of_some
    (s : RegistryState) (cid : Nat) (tok : String) (c : Consultation) (dn : String)
    (hget : get_consultation_for_chat s cid = some (c, dn)) (l : String)
    (hl : c.video_call_link = some l) :
    ensure_video_link s cid tok = (some l, s) := by
  simp [ensure_video_link, hget, hl]

/-- `ensure_video_link` on a consultation without a link generates one
from the token and persists it. -/
theorem ensure_video_link_of_none
    (s : RegistryState) (cid : Nat) (tok : String) (c : Consultation) (dn : String)
    (hget : get_consultation_for_chat s cid = some (c, dn))
    (hl : c.video_call_link = none) :
    ensure_video_link s cid tok =
      (some (video_call_link_for tok), set_video_link s cid (video_call_link_for tok)) := by
  simp [ensure_video_link, hget, hl]

/-- Persisting a link through `set_video_link` changes the chat-page
lookup of that consultation only in its `video_call_link` field. -/
theorem get_consultation_for_chat_set_video_link
    (s : RegistryState) (cid : Nat) (l : String) (c : Consultation) (dn : String)
    (hget : get_consultation_for_chat s cid = some (c, dn)) :
    get_consultation_for_chat (set_video_link s cid l) cid =
      some ({ c with video_call_link := some l }, dn) := by
  simp only [get_consultation_for_chat] at hget
  cases hfc : s.consultations.find? (fun c' => c'.id = cid) with
  | none => rw [hfc] at hget; simp at hget
  | some c₀ =>
    rw [hfc] at hget
    simp only [Option.some_bind] at hget
    cases hfd : s.doctors.find? (fun d => d.id = c₀.doctor_id) with
    | none => rw [hfd] at hget; simp at hget
    | some d =>
      rw [hfd] at hget
      simp only [Option.map_some', Option.some.injEq, Prod.mk.injEq] at hget
      obtain ⟨rfl, rfl⟩ := hget
      have hc₀ : c₀.id = cid := by
        have := List.find?_some hfc
        simpa using this
      have hpf : (fun c' : Consultation => decide (c'.id = cid)) ∘
          (fun c' => if c'.id = cid then { c' with video_call_link := some l } else c') =
          (fun c' : Consultation => decide (c'.id = cid)) := by
        funext c'
        by_cases h : c'.id = cid <;> simp [h]
      simp only [get_consultation_for_chat, set_video_link]
      rw [List.find?_map, hpf, hfc]
      simp [hc₀, hfd]

/-- C2: the video-call link is set at most once per consultation and is
idempotent once set: (i) a video booking returns a non-null link, and
`ensure_video_link` (the video branch of `render_chat_interface`) run
afterwards on the new consultation returns the identical link and leaves
the store unchanged; (ii) on any consultation already carrying a link it
returns that link with the store unchanged; (iii) on a consultation
without a link it generates one, persists it, and a second run returns
this same link with no further change. -/
theorem video_link_set_once_idempotent
    (s : RegistryState) (did pid : Nat) (bd : BookingData) (tok tok' : String) (now : Nat)
    (hty : bd.type = "Video Consultation")
    (hids : ∀ c ∈ s.consultations, c.id < s.nextConsultationId)
    (hdoc : ∃ d ∈ s.doctors, d.id = did) :
    ((book_consultation s did pid bd tok now).1.video_call_link =
       some (video_call_link_for tok) ∧
     ensure_video_link (book_consultation s did pid bd tok now).2
         s.nextConsultationId tok' =
       (some (video_call_link_for tok), (book_consultation s did pid bd tok now).2)) ∧
    (∀ (s₂ : RegistryState) (cid : Nat) (t : String) (c : Consultation) (dn l : String),
      get_consultation_for_chat s₂ cid = some (c, dn) → c.video_call_link = some l →
      ensure_video_link s₂ cid t = (some l, s₂)) ∧
    (∀ (s₂ : RegistryState) (cid : Nat) (t t' : String) (c : Consultation) (dn : String),
      get_consultation_for_chat s₂ cid = some (c, dn) → c.video_call_link = none →
      ensure_video_link s₂ cid t =
        (some (video_call_link_for t), set_video_link s₂ cid (video_call_link_for t)) ∧
      ensure_video_link (set_video_link s₂ cid (video_call_link_for t)) cid t' =
        (some (video_call_link_for t), set_video_link s₂ cid (video_call_link_for t))) := by
  refine ⟨?_, ?_, ?_⟩
  · obtain ⟨d₀, hd₀, hd₀id⟩ := hdoc
    have hnone : s.consultations.find? (fun c => c.id = s.nextConsultationId) = none := by
      rw [List.find?_eq_none]
      intro c hc
      simp only [decide_eq_true_eq]
      exact Nat.ne_of_lt (hids c hc)
    have hsome : (s.doctors.find? (fun d => d.id = did)).isSome := by
      rw [List.find?_isSome]
      exact ⟨d₀, hd₀, by simp [hd₀id]⟩
    obtain ⟨dfound, hdf⟩ := Option.isSome_iff_exists.1 hsome
    have hget : get_consultation_for_chat (book_consultation s did pid bd tok now).2
        s.nextConsultationId =
        some ({ id := s.nextConsultationId, doctor_id := did, patient_id := pid,
                consultation_type := bd.type, consultation_date := bd.date,
                consultation_time := bd.time,
                duration_minutes := bd.duration_minutes.getD 15,
                status := "pending", notes := bd.notes.getD "",
                video_call_link := some (video_call_link_for tok),
                created_at := now }, dfound.name) := by
      simp only [get_consultation_for_chat, book_consultation]
      rw [List.find?_append, hnone]
      simp [hty, hdf]
    refine ⟨by simp [book_consultation, hty], ?_⟩
    exact ensure_video_link_of_some _ _ tok' _ _ hget _ rfl
  · intro s₂ cid t c dn l hget hl
    exact ensure_video_link_of_some _ _ t _ _ hget _ hl
  · intro s₂ cid t t' c dn hget hl
    refine ⟨ensure_video_link_of_none _ _ t _ _ hget hl, ?_⟩
    have hget2 := get_consultation_for_chat_set_video_link s₂ cid
      (video_call_link_for t) c dn hget
    exact ensure_video_link_of_some _ _ t' _ _ hget2 _ rfl

/-- Concrete instance of C2: a video booking against the seeded state,
then `ensure_video_link`, which returns the identical link unchanged. -/
theorem video_link_set_once_idempotent_witness :
    (book_consultation exState 1 2 exBooking "t0" 9).1.video_call_link =
      some (video_call_link_for "t0") ∧
    ensure_video_link (book_consultation exState 1 2 exBooking "t0" 9).2
        exState.nextConsultationId "t1" =
      (some (video_call_link_for "t0"), (book_consultation exState 1 2 exBooking "t0" 9).2) :=
  (video_link_set_once_idempotent exState 1 2 exBooking "t0" "t1" 9 rfl
    (by decide) ⟨exDoctor, by decide, rfl⟩).1

/-- Each `send_chat_message` in a `sendMany` run appends exactly its item
to the consultation's filtered message list (in caller-visible
projection). -/
theorem sendMany_filter_map
    (cid : Nat) (items : List ChatAppend) (s : RegistryState) :
    ((sendMany s cid items).chat_messages.filter
        (fun m => m.consultation_id = cid)).map chatProj =
      (s.chat_messages.filter (fun m => m.consultation_id = cid)).map chatProj ++
        items.map appendProj := by
  induction items generalizing s with
  | nil => simp [sendMany]
  | cons it rest ih =>
    have hstep : sendMany s cid (it :: rest) =
        sendMany (send_chat_message s cid it.sender_id it.sender_type it.text it.sent_at).2
          cid rest := rfl
    rw [hstep, ih]
    simp [send_chat_message, List.filter_append, chatProj, appendProj]

/-- C8: starting from a state holding no messages for the consultation,
appending any sequence of messages under the non-decreasing server clock
and then calling `get_chat_messages` returns exactly those messages, in
append order, with non-decreasing `created_at` timestamps. -/
theorem chat_messages_listed_in_append_order
    (s : RegistryState) (cid : Nat) (items : List ChatAppend)
    (hempty : s.chat_messages.filter (fun m => m.consultation_id = cid) = [])
    (hmono : (items.map ChatAppend.sent_at).Pairwise (· ≤ ·)) :
    (get_chat_messages (sendMany s cid items) cid).map chatProj =
      items.map appendProj ∧
    ((get_chat_messages (sendMany s cid items) cid).map
        ChatMessage.created_at).Pairwise (· ≤ ·) := by
  have hfm := sendMany_filter_map cid items s
  rw [hempty] at hfm
  simp only [List.map_nil, List.nil_append] at hfm
  have hcreated : ((sendMany s cid items).chat_messages.filter
      (fun m => m.consultation_id = cid)).map ChatMessage.created_at =
      items.map ChatAppend.sent_at := by
    have h := congrArg (List.map (fun p : Nat × String × String × Nat => p.2.2.2)) hfm
    simpa [List.map_map, chatProj, appendProj, Function.comp] using h
  have hsorted : List.Pairwise (fun a b : ChatMessage => a.created_at ≤ b.created_at)
      ((sendMany s cid items).chat_messages.filter (fun m => m.consultation_id = cid)) := by
    have h := hcreated ▸ hmono
    exact (List.pairwise_map).1 h
  have hms : get_chat_messages (sendMany s cid items) cid =
      (sendMany s cid items).chat_messages.filter (fun m => m.consultation_id = cid) := by
    simp only [get_chat_messages]
    exact List.mergeSort_of_sorted
      (hsorted.imp (fun h => by simpa [createdAtLe] using h))
  rw [hms, hcreated]
  exact ⟨hfm, hmono⟩

/-- Concrete instance of C8: two messages sent at instants 4 then 5 are
listed in that order. -/
theorem chat_messages_listed_in_append_order_witness :
    exState.chat_messages.filter (fun m => m.consultation_id = 1) = [] ∧
    ([exAppend1, exAppend2].map ChatAppend.sent_at).Pairwise (· ≤ ·) ∧
    ((get_chat_messages (sendMany exState 1 [exAppend1, exAppend2]) 1).map chatProj =
       [exAppend1, exAppend2].map appendProj ∧
     ((get_chat_messages (sendMany exState 1 [exAppend1, exAppend2]) 1).map
        ChatMessage.created_at).Pairwise (· ≤ ·)) :=
  ⟨rfl, by decide,
   chat_messages_listed_in_append_order exState 1 [exAppend1, exAppend2] rfl (by decide)⟩

/-- `validate_input` rejects a vector whose field count is not 13. -/
theorem validate_input_none_of_length {input : List PyFloat}
    (h : input.length ≠ 13) : validate_input input = none := by
  have h13 : feature_names.length = 13 := rfl
  simp [validate_input, h13, h]

/-- `validate_input` rejects a vector containing a NaN or infinite
entry. -/
theorem validate_input_none_of_nonfinite {input : List PyFloat}
    (h : input.any PyFloat.nonFinite = true) : validate_input input = none := by
  by_cases hl : input.length = feature_names.length <;> simp [validate_input, hl, h]

/-- `validate_input` accepts a finite 13-field vector unchanged. -/
theorem validate_input_some {input : List PyFloat}
    (h1 : input.length = 13) (h2 : input.any PyFloat.nonFinite = false) :
    validate_input input = some input := by
  have h13 : feature_names.length = 13 := rfl
  simp [validate_input, h13, h1, h2]

/-- The class-1 probability of the modelled forest is a vote fraction,
hence lies in [0, 1]. -/
theorem proba1_mem_unit (m : RiskModel) (xs : List ℚ) :
    0 ≤ m.proba1 xs ∧ m.proba1 xs ≤ 1 := by
  have hpos : 0 < (m.trees.length : ℚ) := by
    exact_mod_cast List.length_pos.2 m.nonnil
  constructor
  · exact div_nonneg (by positivity) hpos.le
  · rw [RiskModel.proba1, div_le_one hpos]
    exact_mod_cast List.countP_le_length _

/-- C9: with model and scaler loaded, `predict_heart_disease` returns
(None, None) on malformed input — wrong field count or any NaN/infinite
entry — and on a well-formed 13-field input returns a binary class
together with a probability in [0, 1]. -/
theorem predict_validates_and_bounds
    (p : HeartDiseasePredictor) (m : RiskModel) (sc : Scaler) (input : List PyFloat)
    (hm : p.model = some m) (hs : p.scaler = some sc) :
    ((input.length ≠ 13 ∨ input.any PyFloat.nonFinite = true) →
      predict_heart_disease p input = (none, none)) ∧
    (input.length = 13 → input.any PyFloat.nonFinite = false →
      ∃ (c : ℤ) (q : ℚ), predict_heart_disease p input = (some c, some q) ∧
        (c = 0 ∨ c = 1) ∧ 0 ≤ q ∧ q ≤ 1) := by
  constructor
  · intro hbad
    have hv : validate_input input = none := by
      rcases hbad with hlen | hnf
      · exact validate_input_none_of_length hlen
      · exact validate_input_none_of_nonfinite hnf
    simp [predict_heart_disease, hm, hs, hv]
  · intro hlen hfin
    have hv := validate_input_some hlen hfin
    refine ⟨m.predictClass (sc.transform (input.map PyFloat.toRat)),
            m.proba1 (sc.transform (input.map PyFloat.toRat)), ?_, ?_,
            (proba1_mem_unit m _).1, (proba1_mem_unit m _).2⟩
    · simp [predict_heart_disease, hm, hs, hv]
    · by_cases h : 1 - m.proba1 (sc.transform (input.map PyFloat.toRat)) <
          m.proba1 (sc.transform (input.map PyFloat.toRat))
      · right; simp [RiskModel.predictClass, h]
      · left; simp [RiskModel.predictClass, h]

/-- Concrete instance of C9: a loaded predictor on a finite 13-field
vector yields a binary class and a probability in [0, 1]. -/
theorem predict_validates_and_bounds_witness :
    exPredictor.model = some exModel ∧ exPredictor.scaler = some exScaler ∧
    exInput.length = 13 ∧ exInput.any PyFloat.nonFinite = false ∧
    ∃ (c : ℤ) (q : ℚ), predict_heart_disease exPredictor exInput = (some c, some q) ∧
      (c = 0 ∨ c = 1) ∧ 0 ≤ q ∧ q ≤ 1 :=
  ⟨rfl, rfl, rfl, rfl,
   (predict_validates_and_bounds exPredictor exModel exScaler exInput rfl rfl).2 rfl rfl⟩

/-- Concrete instance of C7: booking for patient id 7, which has no users
row, succeeds and is listed with the placeholder name and email. -/
theorem book_unknown_patient_placeholder_witness :
    (book_consultation exState 1 7 exBooking "tk" 4).1.success = true ∧
    ∃ e ∈ get_doctor_consultations (book_consultation exState 1 7 exBooking "tk" 4).2
        [exUser] 1,
      e.consultation.id = exState.nextConsultationId ∧
      e.patient_name = "Unknown Patient" ∧ e.patient_email = "unknown@email.com" :=
  have h := book_unknown_patient_placeholder exState [exUser] 1 7 exBooking "tk" 4 (by decide)
  ⟨h.1, h.2.2⟩
